import Mathlib

/-
Verification of the typed response-decoding layer of the async-riot-api
client library (files async_riot_api/api.py and async_riot_api/types/
__init__.py), as a shallow embedding in Lean.

Modelling conventions, used throughout:
- JSON values delivered by the HTTP layer are the inductive type Json;
  JSON objects are association lists of string keys (Python dicts have
  unique keys, so theorems that depend on it take a Nodup hypothesis).
- A Python constructor call T(**payload) is modelled by a function
  mk T : List (String × Json) → Option T.  The result none models an
  exception escaping the call (TypeError for a missing required keyword
  argument or a non-dict passed to a nested constructor, AttributeError
  for a method called on a value that lacks it).  Keyword binding is
  modelled by key lookups: keys matching declared parameter names bind
  them, the remaining pairs form the kwargs dict.
- RiotApiResponse.__init__ stores the success argument (default True)
  in the name-mangled discriminant and setattr-s every other kwargs
  pair; each record structure therefore carries a success field of type
  Json and an extensions field holding the leftover kwargs pairs.
- bool(record) calls RiotApiResponse.__bool__, which returns the stored
  discriminant; Python raises TypeError when that value is not an actual
  bool.  This is the function pyBool below.
-/

namespace AsyncRiotApi

/-- JSON values as handed to the decoding layer by the HTTP client. -/
inductive Json where
  | null
  | bool (b : Bool)
  | int (n : Int)
  | str (s : String)
  | arr (elems : List Json)
  | obj (fields : List (String × Json))


/-- First value bound to a key in a JSON object (Python dict lookup;
dicts never hold a key twice). -/
def lookupKey (k : String) : List (String × Json) → Option Json
  | [] => none
  | (k₀, v) :: rest => if k₀ = k then some v else lookupKey k rest

/-- The value bound to a key, with the Python None default of optional
parameters (for required parameters the presence guard makes the default
unreachable). -/
def getKey (k : String) (p : List (String × Json)) : Json :=
  (lookupKey k p).getD .null

/-- Whether a key is present in a JSON object: a required keyword
parameter is bound exactly when its key is present. -/
def hasKey (k : String) (fields : List (String × Json)) : Bool :=
  (lookupKey k fields).isSome

/-- The kwargs dict left over after keyword binding: the pairs whose key
is not a declared parameter name. -/
def removeKeys (ks : List String) (fields : List (String × Json)) : List (String × Json) :=
  fields.filter (fun kv => !(ks.contains kv.1))

/-- Python truth value of a JSON-decoded value (None, False, 0, empty
string, empty list and empty dict are falsy). -/
def pyTruthy : Json → Bool
  | .null => false
  | .bool b => b
  | .int n => n != 0
  | .str s => !s.isEmpty
  | .arr xs => !xs.isEmpty
  | .obj fs => !fs.isEmpty

/-- bool(record): RiotApiResponse.__bool__ returns the stored success
discriminant; Python raises TypeError (modelled none) when __bool__
returns a non-bool. -/
def pyBool : Json → Option Bool
  | .bool b => some b
  | _ => none

/-- The Python method startswith on strings, at the character level. -/
def pyStartsWith (s pre : String) : Bool :=
  pre.data.isPrefixOf s.data

/-- The Python method lower on strings (per-character lowercasing). -/
def pyLower (s : String) : String :=
  ⟨s.data.map Char.toLower⟩

/-- The Python subscript s[0] on a nonempty string: its first character
as a one-character string. -/
def pyFirst (s : String) : String :=
  ⟨s.data.take 1⟩

/-- The success discriminant taken by RiotApiResponse.__init__ from the
kwargs that reach it: the value bound to the key success, default True. -/
def kwSuccess (kw : List (String × Json)) : Json :=
  (lookupKey "success" kw).getD (.bool true)

/-- The kwargs pairs that RiotApiResponse.__init__ setattr-s onto the
object, after its own success parameter is bound. -/
def kwRest (kw : List (String × Json)) : List (String × Json) :=
  removeKeys ["success"] kw

/-- types.RiotApiError: message (default the string Bad Request),
status_code (default 400), built over RiotApiResponse with the success
discriminant hard-wired to False. -/
structure RiotApiError where
  message : Json
  status_code : Json
  success : Json
  extensions : List (String × Json)


/-- RiotApiError(**kw).  The constructor forwards False positionally as
the success argument, so a key success inside kw raises TypeError
(multiple values for the argument), modelled none. -/
def mkRiotApiError (kw : List (String × Json)) : Option RiotApiError :=
  if hasKey "success" kw then none
  else some {
    message := (lookupKey "message" kw).getD (.str "Bad Request"),
    status_code := (lookupKey "status_code" kw).getD (.int 400),
    success := .bool false,
    extensions := removeKeys ["message", "status_code"] kw }

/-- The value LoLAPI.__create_object returns: one decoded record, a list
of decoded records, the raw JSON (when no target class is given or the
payload is neither dict nor list), or a RiotApiError. -/
inductive ApiResult (α : Type) where
  | record (r : α)
  | records (rs : List α)
  | raw (j : Json)
  | failure (e : RiotApiError)


/-- list(map(lambda x: object_class(**x), json_response)) over a JSON
list: every element must be a dict and every constructor call must
succeed, else the exception escapes (none). -/
def decodeElems (decode : List (String × Json) → Option α) : List Json → Option (List α)
  | [] => some []
  | .obj f :: rest =>
    match decode f, decodeElems decode rest with
    | some r, some rs => some (r :: rs)
    | _, _ => none
  | _ :: _ => none

/-- LoLAPI.__create_object(response, object_class), with object_class
modelled as an optional decode function.  On a 2xx status: with a target
class, a dict payload yields one record and a list payload yields one
record per element in order; any other payload (or no target class) is
returned raw.  Outside 2xx: the code evaluates the dict method get on
the payload, asking for the status member with an empty-dict default,
and feeds the result to RiotApiError, so a non-dict payload raises
AttributeError (none) and a status member that is not itself a dict
raises TypeError (none). -/
def createObject (decode : Option (List (String × Json) → Option α))
    (status : Int) (jsonResponse : Json) : Option (ApiResult α) :=
  if 200 ≤ status ∧ status < 300 then
    match decode with
    | some d =>
      match jsonResponse with
      | .obj fields => (d fields).map .record
      | .arr elems => (decodeElems d elems).map .records
      | j => some (.raw j)
    | none => some (.raw jsonResponse)
  else
    match jsonResponse with
    | .obj fields =>
      match lookupKey "status" fields with
      | none => (mkRiotApiError []).map .failure
      | some (.obj sub) => (mkRiotApiError sub).map .failure
      | some _ => none
    | _ => none

/-- types.AccountDto: puuid, gameName, tagLine, all stored verbatim. -/
structure AccountDto where
  puuid : Json
  gameName : Json
  tagLine : Json
  success : Json
  extensions : List (String × Json)


/-- AccountDto(**p): the three declared keys are required (missing one
raises TypeError, none); every other pair reaches RiotApiResponse as
kwargs. -/
def mkAccountDto (p : List (String × Json)) : Option AccountDto :=
  match lookupKey "puuid" p, lookupKey "gameName" p, lookupKey "tagLine" p with
  | some pu, some gn, some tl =>
    let kw := removeKeys ["puuid", "gameName", "tagLine"] p
    some { puuid := pu, gameName := gn, tagLine := tl,
           success := kwSuccess kw, extensions := kwRest kw }
  | _, _, _ => none

/-- The success discriminant of the single record returned by
__create_object, when it returned one. -/
def accountSuccessOf : Option (ApiResult AccountDto) → Option Json
  | some (.record a) => some a.success
  | _ => none

/-- types.MiniSeriesDTO: losses, progress, target, wins, stored
verbatim. -/
structure MiniSeriesDTO where
  losses : Json
  progress : Json
  target : Json
  wins : Json
  success : Json
  extensions : List (String × Json)

/-- MiniSeriesDTO(**p): the four declared keys are required. -/
def mkMiniSeriesDTO (p : List (String × Json)) : Option MiniSeriesDTO :=
  match lookupKey "losses" p, lookupKey "progress" p,
      lookupKey "target" p, lookupKey "wins" p with
  | some l, some pr, some t, some w =>
    let kw := removeKeys ["losses", "progress", "target", "wins"] p
    some { losses := l, progress := pr, target := t, wins := w,
           success := kwSuccess kw, extensions := kwRest kw }
  | _, _, _, _ => none

/-- LeagueEntryDTO.__get_short(tier, rank).  The Python body first tests
the truth value of tier and rank and returns None when either is falsy;
otherwise it builds the label from string methods, so non-string truthy
values raise AttributeError (outer none).  The tier part is GM when tier
starts with GR, else the first character of tier; the rank part is 4
when rank lowercases to iv, else the decimal rendering of the length of
rank. -/
def getShort (tier rank : Json) : Option (Option String) :=
  if pyTruthy tier = false ∨ pyTruthy rank = false then some none
  else
    match tier, rank with
    | .str t, .str r =>
      some (some ((if pyStartsWith t "GR" then "GM" else pyFirst t) ++
        (if pyLower r = "iv" then "4" else toString r.length)))
    | _, _ => none

/-- types.LeagueEntryDTO, the fields set by its constructor and the
LeagueItemDTO constructor it calls: ten required fields, the optional
miniSeries (decoded), leagueId, tier, rank, plus the derived short
label. -/
structure LeagueEntryDTO where
  summonerId : Json
  summonerName : Json
  leaguePoints : Json
  rank : Json
  wins : Json
  losses : Json
  veteran : Json
  inactive : Json
  freshBlood : Json
  hotStreak : Json
  miniSeries : Option MiniSeriesDTO
  leagueId : Json
  queueType : Json
  tier : Json
  short : Option String
  success : Json
  extensions : List (String × Json)

/-- The declared parameter names of LeagueEntryDTO.__init__. -/
def leagueEntryKeys : List String :=
  ["summonerId", "summonerName", "queueType", "leaguePoints", "wins", "losses",
   "hotStreak", "veteran", "freshBlood", "inactive", "miniSeries", "leagueId",
   "tier", "rank"]

/-- miniSeries handling in LeagueItemDTO.__init__: None stays None, a
dict is decoded into MiniSeriesDTO, anything else raises TypeError. -/
def decodeMiniSeries : Json → Option (Option MiniSeriesDTO)
  | .null => some none
  | .obj f => (mkMiniSeriesDTO f).map some
  | _ => none

/-- LeagueEntryDTO(**p): the ten non-defaulted parameters are required;
miniSeries, leagueId, tier and rank default to None (also reached by an
explicit JSON null); the short label is computed by __get_short from the
stored tier and rank. -/
def mkLeagueEntryDTO (p : List (String × Json)) : Option LeagueEntryDTO :=
  if ["summonerId", "summonerName", "queueType", "leaguePoints", "wins", "losses",
      "hotStreak", "veteran", "freshBlood", "inactive"].all (fun k => hasKey k p) then
    (decodeMiniSeries (getKey "miniSeries" p)).bind fun ms =>
    (getShort (getKey "tier" p) (getKey "rank" p)).bind fun sh =>
    some {
      summonerId := getKey "summonerId" p,
      summonerName := getKey "summonerName" p,
      leaguePoints := getKey "leaguePoints" p,
      rank := getKey "rank" p,
      wins := getKey "wins" p,
      losses := getKey "losses" p,
      veteran := getKey "veteran" p,
      inactive := getKey "inactive" p,
      freshBlood := getKey "freshBlood" p,
      hotStreak := getKey "hotStreak" p,
      miniSeries := ms,
      leagueId := getKey "leagueId" p,
      queueType := getKey "queueType" p,
      tier := getKey "tier" p,
      short := sh,
      success := kwSuccess (removeKeys leagueEntryKeys p),
      extensions := kwRest (removeKeys leagueEntryKeys p) }
  else none

/-
get_league builds set(list(map(lambda x: LeagueEntryDTO(**x), payload))).
The records define neither __eq__ nor __hash__, so the Python set
deduplicates by object identity, and every constructor call creates a
fresh object.  Object identity is modelled by tagging each decoded
record with its allocation index in the list.
-/

/-- The decode of a league-entries list payload, each constructed object
tagged with a fresh identity (its index, counted from i). -/
def decodeLeagueEntriesFrom (i : Nat) : List Json → Option (List (Nat × LeagueEntryDTO))
  | [] => some []
  | .obj f :: rest =>
    match mkLeagueEntryDTO f, decodeLeagueEntriesFrom (i + 1) rest with
    | some e, some es => some ((i, e) :: es)
    | _, _ => none
  | _ :: _ => none

/-- set(xs) over freshly constructed records: elements are kept in
first-occurrence order and a new element is dropped exactly when an
already kept object is the same object (same identity tag) — the
default object equality of classes that define no __eq__. -/
def pySetByIdentity (xs : List (Nat × LeagueEntryDTO)) : List (Nat × LeagueEntryDTO) :=
  xs.foldl (fun acc x => if acc.any (fun y => y.1 == x.1) then acc else acc ++ [x]) []

/-- LoLAPI.get_league: set over the result of __create_object with
target LeagueEntryDTO.  Only a 2xx list payload yields a collection: on
a 2xx dict payload __create_object returns a single record and set()
raises TypeError (not iterable), and outside 2xx it returns a
RiotApiError with the same effect.  (A 2xx string payload would be
iterated into a set of characters; that degenerate case is outside
every claim and is mapped to none here as well.) -/
def getLeague (status : Int) (payload : Json) : Option (List (Nat × LeagueEntryDTO)) :=
  if 200 ≤ status ∧ status < 300 then
    match payload with
    | .arr elems => (decodeLeagueEntriesFrom 0 elems).map pySetByIdentity
    | _ => none
  else none

/-
LoLAPI.get_nth_match(puuid, n) is the single expression

    await self.get_match((await self.get_matches(puuid, start=n, count=1)
                          or [None])[0])

get_matches returns the raw JSON id list on a 2xx response (no target
class) or a RiotApiError; both outcomes are modelled by MatchesResult.
-/

/-- Outcome of the first step of get_nth_match: the raw JSON list of
match ids on success, or the decoded RiotApiError. -/
inductive MatchesResult where
  | ids (l : List Json)
  | err (e : RiotApiError)

/-- The composite body of get_nth_match over an abstract second step
fetch (modelling await self.get_match(match_id)).  The second component
of the pair records the list of arguments on which get_match is invoked,
so that attempting or skipping the second call is stateable.  The
x-or-y expression evaluates the truth value of the first result: a
nonempty id list is truthy and its first element is passed on; an empty
list is falsy, and a RiotApiError is falsy through __bool__ reading its
False discriminant, so the subscript selects None from the fallback
singleton and get_match is invoked on None.  A truthy error object
would instead be subscripted directly, raising TypeError (none); an
error whose discriminant is not an actual bool makes __bool__ raise
(none).  In every non-raising case the second call is made. -/
def getNthMatch {α : Type} (first : MatchesResult) (fetch : Json → α) :
    Option (α × List Json) :=
  match first with
  | .ids [] => some (fetch .null, [.null])
  | .ids (x :: _) => some (fetch x, [x])
  | .err e =>
    match pyBool e.success with
    | some false => some (fetch .null, [.null])
    | some true => none
    | none => none

/-- types.InfoDto, the fields set by its constructor.  The numeric
fields involved in the derived computations are modelled at their
declared int type; the remaining fields are stored verbatim.  (The
participants and teams lists are decoded element-wise into
ParticipantDto and TeamDto in the source; the claims do not touch those
element records, so the lists are kept as raw JSON here.) -/
structure InfoDto where
  gameCreation : Json
  gameDuration : Int
  gameId : Json
  gameMode : Json
  gameName : Json
  gameStartTimestamp : Int
  gameEndTimestamp : Int
  gameType : Json
  gameVersion : Json
  mapId : Json
  participants : Json
  platformId : Json
  queueId : Json
  teams : Json
  tournamentCode : Json
  gameDurationSeconds : Int
  success : Json
  extensions : List (String × Json)

/-- A JSON value read as a Python int (the int-typed parameters of
InfoDto take part in arithmetic and comparisons, which raise TypeError
on non-numbers). -/
def asInt : Json → Option Int
  | .int n => some n
  | _ => none

/-- The Python expression x or y on ints: x when nonzero, else y. -/
def pyOrInt (x y : Int) : Int :=
  if x ≠ 0 then x else y

/-- The Python expression gd > 10000 and gd // 1000 or gd: floor
division applies when gd exceeds 10000, and the or-fallback fires only
if the quotient is falsy (zero). -/
def durationSeconds (gd : Int) : Int :=
  if 10000 < gd then (if Int.fdiv gd 1000 ≠ 0 then Int.fdiv gd 1000 else gd) else gd

/-- The declared parameter names of InfoDto.__init__. -/
def infoKeys : List String :=
  ["gameCreation", "gameDuration", "gameId", "gameMode", "gameName",
   "gameStartTimestamp", "gameType", "gameVersion", "mapId", "participants",
   "platformId", "queueId", "teams", "tournamentCode", "gameEndTimestamp"]

/-- InfoDto(**p): thirteen required parameters, tournamentCode defaults
to None and gameEndTimestamp defaults to 0.  The stored gameEndTimestamp
is the given one or, when it is falsy (absent or zero),
gameStartTimestamp + gameDuration; gameDurationSeconds follows the
10000 threshold heuristic. -/
def mkInfoDto (p : List (String × Json)) : Option InfoDto :=
  if ["gameCreation", "gameDuration", "gameId", "gameMode", "gameName",
      "gameStartTimestamp", "gameType", "gameVersion", "mapId", "participants",
      "platformId", "queueId", "teams"].all (fun k => hasKey k p) then
    (asInt (getKey "gameDuration" p)).bind fun gd =>
    (asInt (getKey "gameStartTimestamp" p)).bind fun gs =>
    (asInt ((lookupKey "gameEndTimestamp" p).getD (.int 0))).bind fun ge =>
    some {
      gameCreation := getKey "gameCreation" p,
      gameDuration := gd,
      gameId := getKey "gameId" p,
      gameMode := getKey "gameMode" p,
      gameName := getKey "gameName" p,
      gameStartTimestamp := gs,
      gameEndTimestamp := pyOrInt ge (gs + gd),
      gameType := getKey "gameType" p,
      gameVersion := getKey "gameVersion" p,
      mapId := getKey "mapId" p,
      participants := getKey "participants" p,
      platformId := getKey "platformId" p,
      queueId := getKey "queueId" p,
      teams := getKey "teams" p,
      tournamentCode := getKey "tournamentCode" p,
      gameDurationSeconds := durationSeconds gd,
      success := kwSuccess (removeKeys infoKeys p),
      extensions := kwRest (removeKeys infoKeys p) }
  else none

/-- A nested constructor call T(**v): v must be a dict, anything else
raises TypeError. -/
def decodeObjWith (mk : List (String × Json) → Option α) : Json → Option α
  | .obj f => mk f
  | _ => none

/-- types.MTLPositionDto: x and y, stored verbatim. -/
structure MTLPositionDto where
  x : Json
  y : Json
  success : Json
  extensions : List (String × Json)

/-- MTLPositionDto(**p). -/
def mkMTLPositionDto (p : List (String × Json)) : Option MTLPositionDto :=
  if ["x", "y"].all (fun k => hasKey k p) then
    some { x := getKey "x" p, y := getKey "y" p,
           success := kwSuccess (removeKeys ["x", "y"] p),
           extensions := kwRest (removeKeys ["x", "y"] p) }
  else none

/-- The declared parameter names of MTLChampionStatsDto.__init__. -/
def championStatsKeys : List String :=
  ["abilityHaste", "abilityPower", "armor", "armorPen", "armorPenPercent",
   "attackDamage", "attackSpeed", "bonusArmorPenPercent", "bonusMagicPenPercent",
   "ccReduction", "cooldownReduction", "health", "healthMax", "healthRegen",
   "lifesteal", "magicPen", "magicPenPercent", "magicResist", "movementSpeed",
   "omnivamp", "physicalVamp", "power", "powerMax", "powerRegen", "spellVamp"]

/-- types.MTLChampionStatsDto: twenty-five required fields, stored
verbatim; modelled as the field map restricted to the declared keys. -/
structure MTLChampionStatsDto where
  abilityHaste : Json
  abilityPower : Json
  armor : Json
  armorPen : Json
  armorPenPercent : Json
  attackDamage : Json
  attackSpeed : Json
  bonusArmorPenPercent : Json
  bonusMagicPenPercent : Json
  ccReduction : Json
  cooldownReduction : Json
  health : Json
  healthMax : Json
  healthRegen : Json
  lifesteal : Json
  magicPen : Json
  magicPenPercent : Json
  magicResist : Json
  movementSpeed : Json
  omnivamp : Json
  physicalVamp : Json
  power : Json
  powerMax : Json
  powerRegen : Json
  spellVamp : Json
  success : Json
  extensions : List (String × Json)

/-- MTLChampionStatsDto(**p). -/
def mkMTLChampionStatsDto (p : List (String × Json)) : Option MTLChampionStatsDto :=
  if championStatsKeys.all (fun k => hasKey k p) then
    some {
      abilityHaste := getKey "abilityHaste" p,
      abilityPower := getKey "abilityPower" p,
      armor := getKey "armor" p,
      armorPen := getKey "armorPen" p,
      armorPenPercent := getKey "armorPenPercent" p,
      attackDamage := getKey "attackDamage" p,
      attackSpeed := getKey "attackSpeed" p,
      bonusArmorPenPercent := getKey "bonusArmorPenPercent" p,
      bonusMagicPenPercent := getKey "bonusMagicPenPercent" p,
      ccReduction := getKey "ccReduction" p,
      cooldownReduction := getKey "cooldownReduction" p,
      health := getKey "health" p,
      healthMax := getKey "healthMax" p,
      healthRegen := getKey "healthRegen" p,
      lifesteal := getKey "lifesteal" p,
      magicPen := getKey "magicPen" p,
      magicPenPercent := getKey "magicPenPercent" p,
      magicResist := getKey "magicResist" p,
      movementSpeed := getKey "movementSpeed" p,
      omnivamp := getKey "omnivamp" p,
      physicalVamp := getKey "physicalVamp" p,
      power := getKey "power" p,
      powerMax := getKey "powerMax" p,
      powerRegen := getKey "powerRegen" p,
      spellVamp := getKey "spellVamp" p,
      success := kwSuccess (removeKeys championStatsKeys p),
      extensions := kwRest (removeKeys championStatsKeys p) }
  else none

/-- The declared parameter names of MTLDamageStatsDto.__init__. -/
def damageStatsKeys : List String :=
  ["magicDamageDone", "magicDamageDoneToChampions", "magicDamageTaken",
   "physicalDamageDone", "physicalDamageDoneToChampions", "physicalDamageTaken",
   "totalDamageDone", "totalDamageDoneToChampions", "totalDamageTaken",
   "trueDamageDone", "trueDamageDoneToChampions", "trueDamageTaken"]

/-- types.MTLDamageStatsDto: twelve required fields, stored verbatim. -/
structure MTLDamageStatsDto where
  magicDamageDone : Json
  magicDamageDoneToChampions : Json
  magicDamageTaken : Json
  physicalDamageDone : Json
  physicalDamageDoneToChampions : Json
  physicalDamageTaken : Json
  totalDamageDone : Json
  totalDamageDoneToChampions : Json
  totalDamageTaken : Json
  trueDamageDone : Json
  trueDamageDoneToChampions : Json
  trueDamageTaken : Json
  success : Json
  extensions : List (String × Json)

/-- MTLDamageStatsDto(**p). -/
def mkMTLDamageStatsDto (p : List (String × Json)) : Option MTLDamageStatsDto :=
  if damageStatsKeys.all (fun k => hasKey k p) then
    some {
      magicDamageDone := getKey "magicDamageDone" p,
      magicDamageDoneToChampions := getKey "magicDamageDoneToChampions" p,
      magicDamageTaken := getKey "magicDamageTaken" p,
      physicalDamageDone := getKey "physicalDamageDone" p,
      physicalDamageDoneToChampions := getKey "physicalDamageDoneToChampions" p,
      physicalDamageTaken := getKey "physicalDamageTaken" p,
      totalDamageDone := getKey "totalDamageDone" p,
      totalDamageDoneToChampions := getKey "totalDamageDoneToChampions" p,
      totalDamageTaken := getKey "totalDamageTaken" p,
      trueDamageDone := getKey "trueDamageDone" p,
      trueDamageDoneToChampions := getKey "trueDamageDoneToChampions" p,
      trueDamageTaken := getKey "trueDamageTaken" p,
      success := kwSuccess (removeKeys damageStatsKeys p),
      extensions := kwRest (removeKeys damageStatsKeys p) }
  else none

/-- The declared parameter names of MTLParticipantFrameDto.__init__. -/
def participantFrameKeys : List String :=
  ["championStats", "currentGold", "damageStats", "goldPerSecond",
   "jungleMinionsKilled", "level", "minionsKilled", "participantId", "position",
   "timeEnemySpentControlled", "totalGold", "xp"]

/-- types.MTLParticipantFrameDto: twelve required fields, of which
championStats, damageStats and position are recursively decoded. -/
structure MTLParticipantFrameDto where
  championStats : MTLChampionStatsDto
  currentGold : Json
  damageStats : MTLDamageStatsDto
  goldPerSecond : Json
  jungleMinionsKilled : Json
  level : Json
  minionsKilled : Json
  participantId : Json
  position : MTLPositionDto
  timeEnemySpentControlled : Json
  totalGold : Json
  xp : Json
  success : Json
  extensions : List (String × Json)

/-- MTLParticipantFrameDto(**p): keyword binding first (all twelve keys
required), then the nested constructors run in source order. -/
def mkMTLParticipantFrameDto (p : List (String × Json)) : Option MTLParticipantFrameDto :=
  if participantFrameKeys.all (fun k => hasKey k p) then
    (decodeObjWith mkMTLChampionStatsDto (getKey "championStats" p)).bind fun cs =>
    (decodeObjWith mkMTLDamageStatsDto (getKey "damageStats" p)).bind fun ds =>
    (decodeObjWith mkMTLPositionDto (getKey "position" p)).bind fun pos =>
    some {
      championStats := cs,
      currentGold := getKey "currentGold" p,
      damageStats := ds,
      goldPerSecond := getKey "goldPerSecond" p,
      jungleMinionsKilled := getKey "jungleMinionsKilled" p,
      level := getKey "level" p,
      minionsKilled := getKey "minionsKilled" p,
      participantId := getKey "participantId" p,
      position := pos,
      timeEnemySpentControlled := getKey "timeEnemySpentControlled" p,
      totalGold := getKey "totalGold" p,
      xp := getKey "xp" p,
      success := kwSuccess (removeKeys participantFrameKeys p),
      extensions := kwRest (removeKeys participantFrameKeys p) }
  else none

/-- The slot parameter names of MTLParticipantFramesDto.__init__. -/
def slotNames : List String :=
  ["f1", "f2", "f3", "f4", "f5", "f6", "f7", "f8", "f9", "f10"]

/-- types.MTLParticipantFramesDto: ten named slots in numeric order,
each a recursively decoded MTLParticipantFrameDto. -/
structure MTLParticipantFramesDto where
  f1 : MTLParticipantFrameDto
  f2 : MTLParticipantFrameDto
  f3 : MTLParticipantFrameDto
  f4 : MTLParticipantFrameDto
  f5 : MTLParticipantFrameDto
  f6 : MTLParticipantFrameDto
  f7 : MTLParticipantFrameDto
  f8 : MTLParticipantFrameDto
  f9 : MTLParticipantFrameDto
  f10 : MTLParticipantFrameDto
  success : Json
  extensions : List (String × Json)

/-- The participantFrames decode performed inside MTLFrameDto.__init__:
the slot-keyed object has every key prefixed with the letter f and the
result is passed as keyword arguments to MTLParticipantFramesDto, whose
ten slot parameters are required (a missing slot key raises TypeError at
the call, before any slot is decoded); each bound slot value then runs
through the MTLParticipantFrameDto constructor in numeric order. -/
def mkMTLParticipantFramesDto (pf : List (String × Json)) : Option MTLParticipantFramesDto :=
  let remapped := pf.map (fun kv => ("f" ++ kv.1, kv.2))
  if slotNames.all (fun k => hasKey k remapped) then
    (decodeObjWith mkMTLParticipantFrameDto (getKey "f1" remapped)).bind fun r1 =>
    (decodeObjWith mkMTLParticipantFrameDto (getKey "f2" remapped)).bind fun r2 =>
    (decodeObjWith mkMTLParticipantFrameDto (getKey "f3" remapped)).bind fun r3 =>
    (decodeObjWith mkMTLParticipantFrameDto (getKey "f4" remapped)).bind fun r4 =>
    (decodeObjWith mkMTLParticipantFrameDto (getKey "f5" remapped)).bind fun r5 =>
    (decodeObjWith mkMTLParticipantFrameDto (getKey "f6" remapped)).bind fun r6 =>
    (decodeObjWith mkMTLParticipantFrameDto (getKey "f7" remapped)).bind fun r7 =>
    (decodeObjWith mkMTLParticipantFrameDto (getKey "f8" remapped)).bind fun r8 =>
    (decodeObjWith mkMTLParticipantFrameDto (getKey "f9" remapped)).bind fun r9 =>
    (decodeObjWith mkMTLParticipantFrameDto (getKey "f10" remapped)).bind fun r10 =>
    some { f1 := r1, f2 := r2, f3 := r3, f4 := r4, f5 := r5, f6 := r6, f7 := r7,
           f8 := r8, f9 := r9, f10 := r10,
           success := kwSuccess (removeKeys slotNames remapped),
           extensions := kwRest (removeKeys slotNames remapped) }
  else none

/-- The declared parameter names of MTLDamageDto.__init__. -/
def damageKeys : List String :=
  ["basic", "magicDamage", "name", "participantId", "physicalDamage",
   "spellName", "spellSlot", "trueDamage", "type"]

/-- types.MTLDamageDto: nine required fields, stored verbatim. -/
structure MTLDamageDto where
  basic : Json
  magicDamage : Json
  name : Json
  participantId : Json
  physicalDamage : Json
  spellName : Json
  spellSlot : Json
  trueDamage : Json
  type : Json
  success : Json
  extensions : List (String × Json)

/-- MTLDamageDto(**p). -/
def mkMTLDamageDto (p : List (String × Json)) : Option MTLDamageDto :=
  if damageKeys.all (fun k => hasKey k p) then
    some {
      basic := getKey "basic" p,
      magicDamage := getKey "magicDamage" p,
      name := getKey "name" p,
      participantId := getKey "participantId" p,
      physicalDamage := getKey "physicalDamage" p,
      spellName := getKey "spellName" p,
      spellSlot := getKey "spellSlot" p,
      trueDamage := getKey "trueDamage" p,
      type := getKey "type" p,
      success := kwSuccess (removeKeys damageKeys p),
      extensions := kwRest (removeKeys damageKeys p) }
  else none

/-- list(map(lambda x: MTLDamageDto(**x), v)) in MTLEventDto.__init__:
a list is decoded element-wise (a non-dict element raises TypeError);
the other JSON values Python can iterate (strings and dicts) yield
string items that the constructor rejects, except when they are empty,
where the result is the empty list; anything else raises TypeError. -/
def pyDamageList : Json → Option (List MTLDamageDto)
  | .arr xs => decodeElems mkMTLDamageDto xs
  | .str s => if s.isEmpty then some [] else none
  | .obj fs => if fs.isEmpty then some [] else none
  | _ => none

/-- position handling in MTLEventDto.__init__: None stays None, a dict
is decoded, anything else raises TypeError. -/
def decodePosition : Json → Option (Option MTLPositionDto)
  | .null => some none
  | .obj f => (mkMTLPositionDto f).map some
  | _ => none

/-- victimDamageDealt handling in MTLEventDto.__init__: None stays
None, otherwise the value is mapped through the MTLDamageDto
constructor. -/
def decodeVictimDamageDealt : Json → Option (Option (List MTLDamageDto))
  | .null => some none
  | j => (pyDamageList j).map some

/-- victimDamageReceived handling in MTLEventDto.__init__.  The source
guards on victimDamageDealt, not on victimDamageReceived itself: when
victimDamageDealt is None the attribute is set to None without looking
at victimDamageReceived, and otherwise victimDamageReceived is mapped
through the constructor (so a missing victimDamageReceived then makes
map iterate None and raise TypeError). -/
def decodeVictimDamageReceived (vdd vdr : Json) : Option (Option (List MTLDamageDto)) :=
  match vdd with
  | .null => some none
  | _ => (pyDamageList vdr).map some

/-- The declared parameter names of MTLEventDto.__init__. -/
def eventKeys : List String :=
  ["timestamp", "type", "levelUpType", "participantId", "skillSlot",
   "realTimestamp", "itemId", "afterId", "beforeId", "goldGain", "creatorId",
   "wardType", "assistingParticipantIds", "bounty", "killStreakLength",
   "killerId", "position", "victimDamageDealt", "victimDamageReceived",
   "victimId", "killType", "level", "multiKillLength", "laneType", "teamId",
   "killerTeamId", "monsterSubType", "monsterType", "buildingType", "towerType",
   "name", "gameId", "winningTeam"]

/-- types.MTLEventDto: timestamp and type required, everything else
optional with default None; position, victimDamageDealt and
victimDamageReceived are decoded, the rest stored verbatim. -/
structure MTLEventDto where
  timestamp : Json
  type : Json
  levelUpType : Json
  participantId : Json
  skillSlot : Json
  realTimestamp : Json
  itemId : Json
  afterId : Json
  beforeId : Json
  goldGain : Json
  creatorId : Json
  wardType : Json
  assistingParticipantIds : Json
  bounty : Json
  killStreakLength : Json
  killerId : Json
  position : Option MTLPositionDto
  victimDamageDealt : Option (List MTLDamageDto)
  victimDamageReceived : Option (List MTLDamageDto)
  victimId : Json
  killType : Json
  level : Json
  multiKillLength : Json
  laneType : Json
  teamId : Json
  killerTeamId : Json
  monsterSubType : Json
  monsterType : Json
  buildingType : Json
  towerType : Json
  name : Json
  gameId : Json
  winningTeam : Json
  success : Json
  extensions : List (String × Json)

/-- MTLEventDto(**p): a JSON null and an absent key both leave an
optional parameter at None; the nested decodes run in source order
(position, then victimDamageDealt, then victimDamageReceived). -/
def mkMTLEventDto (p : List (String × Json)) : Option MTLEventDto :=
  if ["timestamp", "type"].all (fun k => hasKey k p) then
    (decodePosition (getKey "position" p)).bind fun pos =>
    (decodeVictimDamageDealt (getKey "victimDamageDealt" p)).bind fun vdd =>
    (decodeVictimDamageReceived (getKey "victimDamageDealt" p) (getKey "victimDamageReceived" p)).bind fun vdr =>
    some {
      timestamp := getKey "timestamp" p,
      type := getKey "type" p,
      levelUpType := getKey "levelUpType" p,
      participantId := getKey "participantId" p,
      skillSlot := getKey "skillSlot" p,
      realTimestamp := getKey "realTimestamp" p,
      itemId := getKey "itemId" p,
      afterId := getKey "afterId" p,
      beforeId := getKey "beforeId" p,
      goldGain := getKey "goldGain" p,
      creatorId := getKey "creatorId" p,
      wardType := getKey "wardType" p,
      assistingParticipantIds := getKey "assistingParticipantIds" p,
      bounty := getKey "bounty" p,
      killStreakLength := getKey "killStreakLength" p,
      killerId := getKey "killerId" p,
      position := pos,
      victimDamageDealt := vdd,
      victimDamageReceived := vdr,
      victimId := getKey "victimId" p,
      killType := getKey "killType" p,
      level := getKey "level" p,
      multiKillLength := getKey "multiKillLength" p,
      laneType := getKey "laneType" p,
      teamId := getKey "teamId" p,
      killerTeamId := getKey "killerTeamId" p,
      monsterSubType := getKey "monsterSubType" p,
      monsterType := getKey "monsterType" p,
      buildingType := getKey "buildingType" p,
      towerType := getKey "towerType" p,
      name := getKey "name" p,
      gameId := getKey "gameId" p,
      winningTeam := getKey "winningTeam" p,
      success := kwSuccess (removeKeys eventKeys p),
      extensions := kwRest (removeKeys eventKeys p) }
  else none

/-
Helper lemmas.
-/

theorem lookupKey_removeKeys_of_none (k : String) (l : List String)
    (p : List (String × Json)) (h : lookupKey k p = none) :
    lookupKey k (removeKeys l p) = none := by
  induction p with
  | nil => rfl
  | cons kv rest ih =>
    obtain ⟨k₀, v⟩ := kv
    simp only [lookupKey] at h
    by_cases hk : k₀ = k
    · simp [hk] at h
    · simp only [hk, if_false] at h
      simp only [removeKeys, List.filter]
      cases hc : !(l.contains k₀) <;>
        simp_all [removeKeys, lookupKey, hk]

theorem lookupKey_eq_none_of_forall (k : String) (p : List (String × Json))
    (h : ∀ kv ∈ p, kv.1 ≠ k) : lookupKey k p = none := by
  induction p with
  | nil => rfl
  | cons kv rest ih =>
    simp only [lookupKey]
    have hk : kv.1 ≠ k := h kv (by simp)
    rw [if_neg hk]
    exact ih (fun kv' h' => h kv' (by simp [h']))

theorem hasKey_exists (k : String) (p : List (String × Json))
    (h : hasKey k p = true) : ∃ v, lookupKey k p = some v := by
  simpa [hasKey, Option.isSome_iff_exists] using h

/-
Claim C1.
-/

/-- A payload that is well formed for AccountDto (it binds the three
declared keys) and additionally binds the key success to False. -/
def c1Payload : List (String × Json) :=
  [("puuid", .str "p"), ("gameName", .str "g"), ("tagLine", .str "t"),
   ("success", .bool false)]

/-- Claim C1, counterexample: classifying status 200 with a well-formed
single-object payload that also binds the key success to False returns
one AccountDto record whose boolean coercion is False, not True — the
payload key overrides the internal success discriminant. -/
theorem c1_success_key_overrides_discriminant :
    accountSuccessOf (createObject (some mkAccountDto) 200 (.obj c1Payload)) =
      some (.bool false) := rfl

/-- Claim C1 (amended): for every status code in the 2xx range and every
payload object that binds the keys declared by AccountDto and does not
itself bind the reserved key success, classification returns exactly one
constructed AccountDto record and its boolean coercion is True. -/
theorem c1_two_hundred_single_object_success (s : Int) (p : List (String × Json))
    (h1 : 200 ≤ s) (h2 : s < 300)
    (hpu : hasKey "puuid" p = true) (hgn : hasKey "gameName" p = true)
    (htl : hasKey "tagLine" p = true) (hs : lookupKey "success" p = none) :
    ∃ a : AccountDto, createObject (some mkAccountDto) s (.obj p) = some (.record a) ∧
      pyBool a.success = some true := by
  obtain ⟨pu, hpu'⟩ := hasKey_exists _ _ hpu
  obtain ⟨gn, hgn'⟩ := hasKey_exists _ _ hgn
  obtain ⟨tl, htl'⟩ := hasKey_exists _ _ htl
  have hsucc : lookupKey "success" (removeKeys ["puuid", "gameName", "tagLine"] p) = none :=
    lookupKey_removeKeys_of_none _ _ _ hs
  refine ⟨⟨pu, gn, tl,
      kwSuccess (removeKeys ["puuid", "gameName", "tagLine"] p),
      kwRest (removeKeys ["puuid", "gameName", "tagLine"] p)⟩, ?_, ?_⟩
  · simp only [createObject, if_pos (And.intro h1 h2)]
    simp [mkAccountDto, hpu', hgn', htl']
  · simp [kwSuccess, hsucc, pyBool]

/-- Witness for the amended C1 at a concrete 200-status response. -/
theorem c1_two_hundred_single_object_success_witness :
    ∃ a : AccountDto,
      createObject (some mkAccountDto) 200
        (.obj [("puuid", .str "p"), ("gameName", .str "g"), ("tagLine", .str "t")]) =
        some (.record a) ∧ pyBool a.success = some true :=
  c1_two_hundred_single_object_success 200 _ (by decide) (by decide) rfl rfl rfl rfl

/-
Claim C2.
-/

/-- Claim C2: outside the 2xx range, classification of an object payload
returns a Failure (a RiotApiError) whose boolean coercion is False and
whose message and status_code come from the conventional error
sub-object (the status member, an object with keys among message and
status_code) when present, defaulting to the string Bad Request and to
400 when absent. -/
theorem c2_non_two_hundred_failure_fields {α : Type}
    (d : Option (List (String × Json) → Option α)) (s : Int)
    (fields sub : List (String × Json))
    (hs : s < 200 ∨ 300 ≤ s)
    (hsub : (lookupKey "status" fields = none ∧ sub = []) ∨
      lookupKey "status" fields = some (.obj sub))
    (hconv : ∀ kv ∈ sub, kv.1 = "message" ∨ kv.1 = "status_code") :
    ∃ e : RiotApiError, createObject d s (.obj fields) = some (.failure e) ∧
      pyBool e.success = some false ∧
      e.message = (lookupKey "message" sub).getD (.str "Bad Request") ∧
      e.status_code = (lookupKey "status_code" sub).getD (.int 400) := by
  have hnot : ¬(200 ≤ s ∧ s < 300) := by omega
  have hsucc : lookupKey "success" sub = none := by
    refine lookupKey_eq_none_of_forall _ _ (fun kv hkv => ?_)
    rcases hconv kv hkv with h | h <;> simp [h]
  refine ⟨⟨(lookupKey "message" sub).getD (.str "Bad Request"),
    (lookupKey "status_code" sub).getD (.int 400), .bool false,
    removeKeys ["message", "status_code"] sub⟩, ?_, rfl, rfl, rfl⟩
  rcases hsub with ⟨hnone, rfl⟩ | hsome
  · simp [createObject, hnot, hnone, mkRiotApiError, hasKey, lookupKey]
  · simp [createObject, hnot, hsome, mkRiotApiError, hasKey, hsucc]

/-- Witness for C2 at a concrete 404 response carrying a conventional
error body, and at one with no status member. -/
theorem c2_non_two_hundred_failure_fields_witness :
    (∃ e : RiotApiError,
      createObject (some mkAccountDto) 404
        (.obj [("status", .obj [("message", .str "Forbidden"), ("status_code", .int 403)])]) =
        some (.failure e) ∧
      pyBool e.success = some false ∧
      e.message = (lookupKey "message"
        [("message", .str "Forbidden"), ("status_code", .int 403)]).getD (.str "Bad Request") ∧
      e.status_code = (lookupKey "status_code"
        [("message", .str "Forbidden"), ("status_code", .int 403)]).getD (.int 400)) ∧
    (∃ e : RiotApiError,
      createObject (some mkAccountDto) 500 (.obj [("other", .int 1)]) =
        some (.failure e) ∧
      pyBool e.success = some false ∧
      e.message = (lookupKey "message" ([] : List (String × Json))).getD (.str "Bad Request") ∧
      e.status_code = (lookupKey "status_code" ([] : List (String × Json))).getD (.int 400)) :=
  ⟨c2_non_two_hundred_failure_fields (some mkAccountDto) 404 _ _
      (by omega) (Or.inr rfl) (by intro kv hkv; simp at hkv; rcases hkv with h | h <;> simp [h]),
    c2_non_two_hundred_failure_fields (some mkAccountDto) 500 _ []
      (by omega) (Or.inl ⟨rfl, rfl⟩) (by intro kv hkv; simp at hkv)⟩

/-
Claim C3.
-/

/-- Claim C3, counterexample: on a non-2xx status with a payload that is
not a JSON object (here the empty JSON list), classification does not
produce an ApiFailure value at all — the dict method get is missing on a
list, so the code raises AttributeError (modelled none). -/
theorem c3_nonobject_error_body_raises :
    createObject (some mkAccountDto) 404 (Json.arr []) = none := rfl

/-- Claim C3 (amended): for every non-2xx status and every payload that
is a JSON object whose status member, when present, is itself an object
not binding the reserved key success, classification totally succeeds in
producing an ApiFailure value (with safe defaults when the error body is
empty or lacks the conventional keys); for non-object payloads the
operation raises instead. -/
theorem c3_object_error_body_total {α : Type}
    (d : Option (List (String × Json) → Option α)) (s : Int)
    (fields sub : List (String × Json))
    (hs : s < 200 ∨ 300 ≤ s)
    (hsub : (lookupKey "status" fields = none ∧ sub = []) ∨
      lookupKey "status" fields = some (.obj sub))
    (hsucc : hasKey "success" sub = false) :
    ∃ e : RiotApiError, createObject d s (.obj fields) = some (.failure e) ∧
      pyBool e.success = some false := by
  have hnot : ¬(200 ≤ s ∧ s < 300) := by omega
  refine ⟨⟨(lookupKey "message" sub).getD (.str "Bad Request"),
    (lookupKey "status_code" sub).getD (.int 400), .bool false,
    removeKeys ["message", "status_code"] sub⟩, ?_, rfl⟩
  rcases hsub with ⟨hnone, rfl⟩ | hsome
  · simp [createObject, hnot, hnone, mkRiotApiError, hasKey, lookupKey]
  · simp [createObject, hnot, hsome, mkRiotApiError, hsucc]

/-- Witness for the amended C3 at a concrete 429 response whose error
body is an object with an unconventional shape. -/
theorem c3_object_error_body_total_witness :
    ∃ e : RiotApiError,
      createObject (some mkAccountDto) 429
        (.obj [("status", .obj [("retryAfter", .int 5)])]) = some (.failure e) ∧
      pyBool e.success = some false :=
  c3_object_error_body_total (some mkAccountDto) 429 _ [("retryAfter", .int 5)]
    (by omega) (Or.inr rfl) rfl

/-
Claim C4.
-/

theorem decodeLeagueEntriesFrom_map_fst (xs : List Json) (i : Nat)
    (entries : List (Nat × LeagueEntryDTO))
    (h : decodeLeagueEntriesFrom i xs = some entries) :
    entries.map Prod.fst = List.range' i xs.length := by
  induction xs generalizing i entries with
  | nil =>
    simp only [decodeLeagueEntriesFrom, Option.some.injEq] at h
    subst h
    simp
  | cons x rest ih =>
    cases x <;> simp only [decodeLeagueEntriesFrom] at h <;> try exact absurd h (by simp)
    rename_i f
    rcases hm : mkLeagueEntryDTO f with _ | e <;> rw [hm] at h <;>
      rcases hr : decodeLeagueEntriesFrom (i + 1) rest with _ | es <;> rw [hr] at h <;>
      simp only [Option.some.injEq] at h <;> try exact absurd h (by simp)
    subst h
    simp only [List.length_cons]
    rw [List.range'_succ]
    simpa using ih (i + 1) es hr

theorem pySet_foldl_of_nodup (xs acc : List (Nat × LeagueEntryDTO))
    (h : ((acc ++ xs).map Prod.fst).Nodup) :
    xs.foldl (fun acc x => if acc.any (fun y => y.1 == x.1) then acc else acc ++ [x]) acc =
      acc ++ xs := by
  induction xs generalizing acc with
  | nil => simp
  | cons x rest ih =>
    have hmem : x.1 ∉ acc.map Prod.fst := by
      intro hx
      rw [List.map_append] at h
      rcases (List.nodup_append.mp h) with ⟨_, _, hdisj⟩
      exact hdisj hx (by simp)
    have hany : (acc.any fun y => y.1 == x.1) = false := by
      rw [List.any_eq_false]
      intro y hy
      simp only [beq_iff_eq]
      intro he
      exact hmem (he ▸ List.mem_map_of_mem Prod.fst hy)
    simp only [List.foldl_cons, hany, Bool.false_eq_true, if_false]
    rw [ih (acc ++ [x]) (by rwa [← List.append_cons])]
    simp

theorem pySetByIdentity_eq_self (xs : List (Nat × LeagueEntryDTO))
    (h : (xs.map Prod.fst).Nodup) : pySetByIdentity xs = xs := by
  simpa [pySetByIdentity] using pySet_foldl_of_nodup xs [] (by simpa using h)

/-- A well-formed league-entry object (tier GOLD, rank IV). -/
def c4Entry : Json :=
  .obj [("summonerId", .str "sid"), ("summonerName", .str "name"),
    ("queueType", .str "RANKED_SOLO_5x5"), ("leaguePoints", .int 10),
    ("wins", .int 7), ("losses", .int 3), ("hotStreak", .bool false),
    ("veteran", .bool false), ("freshBlood", .bool false),
    ("inactive", .bool false), ("tier", .str "GOLD"), ("rank", .str "IV")]

/-- Claim C4, counterexample: decoding a 2xx league-entries payload that
contains the same entry object twice yields a collection with two
elements whose decoded records are structurally identical — the set
deduplicates by object identity (the record classes define no structural
equality), so nothing is collapsed. -/
theorem c4_identical_entries_not_collapsed :
    ∃ r : LeagueEntryDTO,
      getLeague 200 (.arr [c4Entry, c4Entry]) = some [(0, r), (1, r)] :=
  ⟨_, rfl⟩

/-- Claim C4 (amended): decoding a 2xx league-entries list payload via
the set-semantics endpoint produces an unordered collection in which
duplicate elimination is by object identity; since every payload element
is decoded into a fresh object, the collection keeps exactly one element
per payload entry and structurally identical entries are not merged. -/
theorem c4_league_set_keeps_every_entry (s : Int) (xs : List Json)
    (entries : List (Nat × LeagueEntryDTO))
    (h1 : 200 ≤ s) (h2 : s < 300)
    (hd : decodeLeagueEntriesFrom 0 xs = some entries) :
    getLeague s (.arr xs) = some entries ∧ entries.length = xs.length := by
  have hfst := decodeLeagueEntriesFrom_map_fst xs 0 entries hd
  have hnodup : (entries.map Prod.fst).Nodup := by
    rw [hfst]; exact List.nodup_range' 0 xs.length 1 Nat.one_pos
  constructor
  · simp [getLeague, if_pos (And.intro h1 h2), hd, pySetByIdentity_eq_self _ hnodup]
  · simpa using congrArg List.length hfst

/-- Witness for the amended C4 at the concrete duplicated payload. -/
theorem c4_league_set_keeps_every_entry_witness :
    ∃ entries : List (Nat × LeagueEntryDTO),
      decodeLeagueEntriesFrom 0 [c4Entry, c4Entry] = some entries ∧
      getLeague 200 (.arr [c4Entry, c4Entry]) = some entries ∧
      entries.length = 2 := by
  obtain ⟨es, hd⟩ : ∃ es, decodeLeagueEntriesFrom 0 [c4Entry, c4Entry] = some es := ⟨_, rfl⟩
  have h := c4_league_set_keeps_every_entry 200 [c4Entry, c4Entry] es
    (by decide) (by decide) hd
  exact ⟨es, hd, h.1, by simpa using h.2⟩

/-
Claim C5.
-/

/-- Claim C5 (what the code actually does): when the first step of
get_nth_match fails (a falsy RiotApiError) or returns an empty id list,
the second step is still attempted — get_match is invoked on the None
sentinel (the call trace is the singleton null) and its result is what
the composite returns, so the composite neither skips the second network
call nor returns the documented None directly.  This contradicts the
claim and the docstring of get_nth_match. -/
theorem c5_second_call_attempted (α : Type) (fetch : Json → α) (e : RiotApiError)
    (he : e.success = .bool false) :
    getNthMatch (.ids []) fetch = some (fetch .null, [.null]) ∧
    getNthMatch (.err e) fetch = some (fetch .null, [.null]) := by
  exact ⟨rfl, by simp [getNthMatch, he, pyBool]⟩

/-- Witness for C5 at a concrete empty id list and a concrete default
error. -/
theorem c5_second_call_attempted_witness :
    getNthMatch (.ids []) (fun j => j) = some (.null, [.null]) ∧
    getNthMatch (.err ⟨.str "Bad Request", .int 400, .bool false, []⟩) (fun j => j) =
      some (.null, [.null]) :=
  c5_second_call_attempted Json (fun j => j)
    ⟨.str "Bad Request", .int 400, .bool false, []⟩ rfl

/-
Claim C6.
-/

theorem mkInfoDto_derived (p : List (String × Json)) (info : InfoDto)
    (h : mkInfoDto p = some info) :
    asInt (getKey "gameDuration" p) = some info.gameDuration ∧
    asInt (getKey "gameStartTimestamp" p) = some info.gameStartTimestamp ∧
    ∃ ge : Int, asInt ((lookupKey "gameEndTimestamp" p).getD (.int 0)) = some ge ∧
      info.gameEndTimestamp = pyOrInt ge (info.gameStartTimestamp + info.gameDuration) ∧
      info.gameDurationSeconds = durationSeconds info.gameDuration := by
  unfold mkInfoDto at h
  split at h
  case isFalse => exact absurd h (by simp)
  rcases h1 : asInt (getKey "gameDuration" p) with _ | gd <;> rw [h1] at h
  · exact absurd h (by simp)
  rcases h2 : asInt (getKey "gameStartTimestamp" p) with _ | gs <;> rw [h2] at h
  · exact absurd h (by simp)
  rcases h3 : asInt ((lookupKey "gameEndTimestamp" p).getD (.int 0)) with _ | ge <;>
    rw [h3] at h
  · exact absurd h (by simp)
  simp only [Option.some_bind, Option.some.injEq] at h
  subst h
  exact ⟨rfl, rfl, ge, rfl, rfl, rfl⟩

/-- Claim C6: in a decoded match-info record, when gameEndTimestamp is
absent from the payload or supplied as zero, the stored gameEndTimestamp
is gameStartTimestamp + gameDuration; the derived seconds field is the
floor quotient of gameDuration by 1000 exactly when gameDuration exceeds
the 10000 threshold, and gameDuration unchanged otherwise. -/
theorem c6_derived_fields (p : List (String × Json)) (info : InfoDto) (gs gd : Int)
    (h : mkInfoDto p = some info)
    (hgs : lookupKey "gameStartTimestamp" p = some (.int gs))
    (hgd : lookupKey "gameDuration" p = some (.int gd)) :
    ((lookupKey "gameEndTimestamp" p = none ∨
        lookupKey "gameEndTimestamp" p = some (.int 0)) →
      info.gameEndTimestamp = gs + gd) ∧
    (10000 < gd → info.gameDurationSeconds = Int.fdiv gd 1000) ∧
    (gd ≤ 10000 → info.gameDurationSeconds = gd) := by
  obtain ⟨h1, h2, ge, h3, h4, h5⟩ := mkInfoDto_derived p info h
  have hgd' : info.gameDuration = gd := by
    rw [getKey, hgd] at h1
    simp [asInt] at h1
    omega
  have hgs' : info.gameStartTimestamp = gs := by
    rw [getKey, hgs] at h2
    simp [asInt] at h2
    omega
  refine ⟨?_, ?_, ?_⟩
  · intro hge
    have hge' : ge = 0 := by
      rcases hge with hnone | hzero
      · rw [hnone] at h3; simp [asInt] at h3; omega
      · rw [hzero] at h3; simp [asInt] at h3; omega
    rw [h4, hge', hgs', hgd']
    simp [pyOrInt]
  · intro hlt
    have hq : Int.fdiv gd 1000 ≠ 0 := by
      rw [Int.fdiv_eq_ediv gd (by norm_num)]
      have : 10 ≤ gd / 1000 := by
        rw [Int.le_ediv_iff_mul_le (by norm_num)]
        omega
      omega
    rw [h5, hgd', durationSeconds, if_pos hlt, if_pos hq]
  · intro hle
    rw [h5, hgd', durationSeconds, if_neg (by omega)]

/-- A concrete match-info payload with the supplied game duration and
end timestamp, following the spec scenario. -/
def c6Payload (gd : Int) (withEndZero : Bool) : List (String × Json) :=
  [("gameCreation", .int 1), ("gameDuration", .int gd), ("gameId", .int 2),
   ("gameMode", .str "CLASSIC"), ("gameName", .str "g"),
   ("gameStartTimestamp", .int 1000), ("gameType", .str "MATCHED_GAME"),
   ("gameVersion", .str "v"), ("mapId", .int 11), ("participants", .arr []),
   ("platformId", .str "EUW1"), ("queueId", .int 420), ("teams", .arr [])] ++
  (if withEndZero then [("gameEndTimestamp", .int 0)] else [])

/-- Witness for C6 at the concrete payloads of the spec scenario:
start 1000, duration 500, end 0 gives end 1500; duration 25000 gives
25 seconds; duration 1800 gives 1800 seconds. -/
theorem c6_derived_fields_witness :
    (∃ info : InfoDto, mkInfoDto (c6Payload 500 true) = some info ∧
      info.gameEndTimestamp = 1500) ∧
    (∃ info : InfoDto, mkInfoDto (c6Payload 25000 false) = some info ∧
      info.gameDurationSeconds = 25) ∧
    (∃ info : InfoDto, mkInfoDto (c6Payload 1800 false) = some info ∧
      info.gameDurationSeconds = 1800) := by
  obtain ⟨i1, hi1⟩ : ∃ i, mkInfoDto (c6Payload 500 true) = some i := ⟨_, rfl⟩
  obtain ⟨i2, hi2⟩ : ∃ i, mkInfoDto (c6Payload 25000 false) = some i := ⟨_, rfl⟩
  obtain ⟨i3, hi3⟩ : ∃ i, mkInfoDto (c6Payload 1800 false) = some i := ⟨_, rfl⟩
  refine ⟨⟨i1, hi1, ?_⟩, ⟨i2, hi2, ?_⟩, ⟨i3, hi3, ?_⟩⟩
  · exact ((c6_derived_fields _ _ 1000 500 hi1 rfl rfl).1 (Or.inr rfl)).trans (by norm_num)
  · exact ((c6_derived_fields _ _ 1000 25000 hi2 rfl rfl).2.1 (by norm_num)).trans (by decide)
  · exact (c6_derived_fields _ _ 1000 1800 hi3 rfl rfl).2.2 (by norm_num)

/-
Claim C7.
-/

theorem f_append_inj (a b : String) (h : "f" ++ a = "f" ++ b) : a = b := by
  have h2 := congrArg String.data h
  simp [String.data_append] at h2
  exact String.ext h2

theorem lookupKey_remap (k : String) (pf : List (String × Json)) :
    lookupKey ("f" ++ k) (pf.map (fun kv => ("f" ++ kv.1, kv.2))) = lookupKey k pf := by
  induction pf with
  | nil => rfl
  | cons kv rest ih =>
    obtain ⟨k₀, v⟩ := kv
    simp only [List.map_cons, lookupKey]
    by_cases hk : k₀ = k
    · subst hk
      simp
    · rw [if_neg (fun he => hk (f_append_inj _ _ he)), if_neg hk, ih]

/-- Claim C7: decoding a participant-frames object whose keys are the
slot strings 1 to 10 produces a record with the ten named slot
attributes f1 to f10 in numeric order, each slot value recursively
decoded through the MTLParticipantFrameDto constructor; and when the
slot key 7 is missing from the object, the decode fails (the missing
required keyword argument raises — the SchemaMismatch condition) instead
of producing a record. -/
theorem c7_participant_frames_fixed_slots :
    (∀ (pf : List (String × Json)) (v1 v2 v3 v4 v5 v6 v7 v8 v9 v10 : Json)
       (r1 r2 r3 r4 r5 r6 r7 r8 r9 r10 : MTLParticipantFrameDto),
      lookupKey "1" pf = some v1 → lookupKey "2" pf = some v2 →
      lookupKey "3" pf = some v3 → lookupKey "4" pf = some v4 →
      lookupKey "5" pf = some v5 → lookupKey "6" pf = some v6 →
      lookupKey "7" pf = some v7 → lookupKey "8" pf = some v8 →
      lookupKey "9" pf = some v9 → lookupKey "10" pf = some v10 →
      decodeObjWith mkMTLParticipantFrameDto v1 = some r1 →
      decodeObjWith mkMTLParticipantFrameDto v2 = some r2 →
      decodeObjWith mkMTLParticipantFrameDto v3 = some r3 →
      decodeObjWith mkMTLParticipantFrameDto v4 = some r4 →
      decodeObjWith mkMTLParticipantFrameDto v5 = some r5 →
      decodeObjWith mkMTLParticipantFrameDto v6 = some r6 →
      decodeObjWith mkMTLParticipantFrameDto v7 = some r7 →
      decodeObjWith mkMTLParticipantFrameDto v8 = some r8 →
      decodeObjWith mkMTLParticipantFrameDto v9 = some r9 →
      decodeObjWith mkMTLParticipantFrameDto v10 = some r10 →
      ∃ r : MTLParticipantFramesDto, mkMTLParticipantFramesDto pf = some r ∧
        r.f1 = r1 ∧ r.f2 = r2 ∧ r.f3 = r3 ∧ r.f4 = r4 ∧ r.f5 = r5 ∧
        r.f6 = r6 ∧ r.f7 = r7 ∧ r.f8 = r8 ∧ r.f9 = r9 ∧ r.f10 = r10) ∧
    (∀ pf : List (String × Json), lookupKey "7" pf = none →
      mkMTLParticipantFramesDto pf = none) := by
  constructor
  · intro pf v1 v2 v3 v4 v5 v6 v7 v8 v9 v10 r1 r2 r3 r4 r5 r6 r7 r8 r9 r10
      h1 h2 h3 h4 h5 h6 h7 h8 h9 h10 d1 d2 d3 d4 d5 d6 d7 d8 d9 d10
    have E1 : lookupKey "f1" (pf.map (fun kv => ("f" ++ kv.1, kv.2))) = some v1 :=
      (lookupKey_remap "1" pf).trans h1
    have E2 : lookupKey "f2" (pf.map (fun kv => ("f" ++ kv.1, kv.2))) = some v2 :=
      (lookupKey_remap "2" pf).trans h2
    have E3 : lookupKey "f3" (pf.map (fun kv => ("f" ++ kv.1, kv.2))) = some v3 :=
      (lookupKey_remap "3" pf).trans h3
    have E4 : lookupKey "f4" (pf.map (fun kv => ("f" ++ kv.1, kv.2))) = some v4 :=
      (lookupKey_remap "4" pf).trans h4
    have E5 : lookupKey "f5" (pf.map (fun kv => ("f" ++ kv.1, kv.2))) = some v5 :=
      (lookupKey_remap "5" pf).trans h5
    have E6 : lookupKey "f6" (pf.map (fun kv => ("f" ++ kv.1, kv.2))) = some v6 :=
      (lookupKey_remap "6" pf).trans h6
    have E7 : lookupKey "f7" (pf.map (fun kv => ("f" ++ kv.1, kv.2))) = some v7 :=
      (lookupKey_remap "7" pf).trans h7
    have E8 : lookupKey "f8" (pf.map (fun kv => ("f" ++ kv.1, kv.2))) = some v8 :=
      (lookupKey_remap "8" pf).trans h8
    have E9 : lookupKey "f9" (pf.map (fun kv => ("f" ++ kv.1, kv.2))) = some v9 :=
      (lookupKey_remap "9" pf).trans h9
    have E10 : lookupKey "f10" (pf.map (fun kv => ("f" ++ kv.1, kv.2))) = some v10 :=
      (lookupKey_remap "10" pf).trans h10
    refine ⟨⟨r1, r2, r3, r4, r5, r6, r7, r8, r9, r10,
      kwSuccess (removeKeys slotNames (pf.map (fun kv => ("f" ++ kv.1, kv.2)))),
      kwRest (removeKeys slotNames (pf.map (fun kv => ("f" ++ kv.1, kv.2))))⟩,
      ?_, rfl, rfl, rfl, rfl, rfl, rfl, rfl, rfl, rfl, rfl⟩
    simp only [mkMTLParticipantFramesDto, slotNames, getKey, hasKey,
      E1, E2, E3, E4, E5, E6, E7, E8, E9, E10,
      d1, d2, d3, d4, d5, d6, d7, d8, d9, d10,
      Option.getD_some, Option.isSome_some, Option.some_bind,
      List.all_cons, List.all_nil, Bool.and_self, Bool.and_true, if_true]
  · intro pf h7
    have E7 : lookupKey "f7" (pf.map (fun kv => ("f" ++ kv.1, kv.2))) = none :=
      (lookupKey_remap "7" pf).trans h7
    simp [mkMTLParticipantFramesDto, slotNames, hasKey, E7]

/-- A well-formed participant-frame object. -/
def c7Frame : Json :=
  .obj [("championStats", .obj (championStatsKeys.map (fun k => (k, Json.int 0)))),
    ("currentGold", .int 0),
    ("damageStats", .obj (damageStatsKeys.map (fun k => (k, Json.int 0)))),
    ("goldPerSecond", .int 0), ("jungleMinionsKilled", .int 0), ("level", .int 1),
    ("minionsKilled", .int 0), ("participantId", .int 1),
    ("position", .obj [("x", .int 0), ("y", .int 0)]),
    ("timeEnemySpentControlled", .int 0), ("totalGold", .int 500), ("xp", .int 0)]

/-- A participant-frames object keyed 1 to 10. -/
def c7Payload : List (String × Json) :=
  (List.range 10).map (fun i => (toString (i + 1), c7Frame))

/-- The same object with the slot key 7 removed. -/
def c7PayloadMissing7 : List (String × Json) :=
  c7Payload.filter (fun kv => kv.1 != "7")

/-- Witness for C7: the complete ten-slot object decodes (with every
slot holding the same decoded frame), and the object missing key 7 does
not decode. -/
theorem c7_participant_frames_fixed_slots_witness :
    (∃ r : MTLParticipantFramesDto, mkMTLParticipantFramesDto c7Payload = some r ∧
      r.f1 = r.f7) ∧
    mkMTLParticipantFramesDto c7PayloadMissing7 = none := by
  constructor
  · obtain ⟨fr, hfr⟩ : ∃ fr, decodeObjWith mkMTLParticipantFrameDto c7Frame = some fr :=
      ⟨_, rfl⟩
    obtain ⟨r, hr, e1, _, _, _, _, _, e7, _, _, _⟩ :=
      c7_participant_frames_fixed_slots.1 c7Payload
        c7Frame c7Frame c7Frame c7Frame c7Frame c7Frame c7Frame c7Frame c7Frame c7Frame
        fr fr fr fr fr fr fr fr fr fr
        rfl rfl rfl rfl rfl rfl rfl rfl rfl rfl
        hfr hfr hfr hfr hfr hfr hfr hfr hfr hfr
    exact ⟨r, hr, by rw [e1, e7]⟩
  · exact c7_participant_frames_fixed_slots.2 c7PayloadMissing7 rfl

/-
Claim C8.
-/

theorem mkLeagueEntryDTO_short (p : List (String × Json)) (r : LeagueEntryDTO)
    (h : mkLeagueEntryDTO p = some r) :
    getShort (getKey "tier" p) (getKey "rank" p) = some r.short := by
  unfold mkLeagueEntryDTO at h
  split at h
  case isFalse => exact absurd h (by simp)
  rcases hms : decodeMiniSeries (getKey "miniSeries" p) with _ | ms <;> rw [hms] at h
  · exact absurd h (by simp)
  rcases hsh : getShort (getKey "tier" p) (getKey "rank" p) with _ | sh <;> rw [hsh] at h
  · exact absurd h (by simp)
  simp only [Option.some_bind, Option.some.injEq] at h
  subst h
  rfl

theorem ne_empty_isEmpty_false (s : String) (h : s ≠ "") : s.isEmpty = false := by
  cases hb : s.isEmpty
  · rfl
  · exact absurd ((String.isEmpty_iff s).mp hb) h

theorem getShort_str (t r : String) (ht : t.isEmpty = false) (hr : r.isEmpty = false) :
    getShort (.str t) (.str r) =
      some (some ((if pyStartsWith t "GR" then "GM" else pyFirst t) ++
        (if pyLower r = "iv" then "4" else toString r.length))) := by
  rw [getShort, if_neg (by simp [pyTruthy, ht, hr])]

/-- Claim C8: for a decoded league entry, the derived short label is the
absent marker None when tier or rank is missing from the payload; it is
GM followed by the rank number when the stored tier starts with GR (the
grandmaster prefix); and otherwise it is the first letter of the tier
followed by the rank number, where the roman numerals I, II, III map to
1, 2, 3 through their length and IV is special-cased to 4. -/
theorem c8_short_rank_label (p : List (String × Json)) (r : LeagueEntryDTO)
    (h : mkLeagueEntryDTO p = some r) :
    ((lookupKey "tier" p = none ∨ lookupKey "rank" p = none) → r.short = none) ∧
    (∀ t rk n, lookupKey "tier" p = some (.str t) → lookupKey "rank" p = some (.str rk) →
      pyStartsWith t "GR" = true →
      (rk, n) ∈ [("I", "1"), ("II", "2"), ("III", "3"), ("IV", "4")] →
      r.short = some ("GM" ++ n)) ∧
    (∀ t rk n, lookupKey "tier" p = some (.str t) → lookupKey "rank" p = some (.str rk) →
      pyStartsWith t "GR" = false → t ≠ "" →
      (rk, n) ∈ [("I", "1"), ("II", "2"), ("III", "3"), ("IV", "4")] →
      r.short = some (pyFirst t ++ n)) := by
  have hs := mkLeagueEntryDTO_short p r h
  have hnul : pyTruthy Json.null = false := rfl
  refine ⟨?_, ?_, ?_⟩
  · intro hmr
    rcases hmr with hnone | hnone
    · have hn : getKey "tier" p = .null := by rw [getKey, hnone]; rfl
      rw [hn, getShort, if_pos (Or.inl hnul)] at hs
      · exact (Option.some.inj hs).symm
      · intro a b h1 h2
        cases h1
    · have hn : getKey "rank" p = .null := by rw [getKey, hnone]; rfl
      rw [hn, getShort, if_pos (Or.inr hnul)] at hs
      · exact (Option.some.inj hs).symm
      · intro a b h1 h2
        cases h2
  · intro t rk n ht hrk hGR hmem
    have htne : t ≠ "" := by
      intro he
      subst he
      exact absurd hGR (by decide)
    have htf := ne_empty_isEmpty_false t htne
    rw [getKey, ht, getKey, hrk] at hs
    simp only [Option.getD_some] at hs
    simp only [List.mem_cons, List.not_mem_nil, or_false, Prod.mk.injEq] at hmem
    rcases hmem with ⟨rfl, rfl⟩ | ⟨rfl, rfl⟩ | ⟨rfl, rfl⟩ | ⟨rfl, rfl⟩
    · rw [getShort_str t "I" htf rfl, hGR, if_pos rfl, if_neg (by decide)] at hs
      exact (Option.some.inj hs).symm
    · rw [getShort_str t "II" htf rfl, hGR, if_pos rfl, if_neg (by decide)] at hs
      exact (Option.some.inj hs).symm
    · rw [getShort_str t "III" htf rfl, hGR, if_pos rfl, if_neg (by decide)] at hs
      exact (Option.some.inj hs).symm
    · rw [getShort_str t "IV" htf rfl, hGR, if_pos rfl, if_pos (by decide)] at hs
      exact (Option.some.inj hs).symm
  · intro t rk n ht hrk hGR htne hmem
    have htf := ne_empty_isEmpty_false t htne
    rw [getKey, ht, getKey, hrk] at hs
    simp only [Option.getD_some] at hs
    simp only [List.mem_cons, List.not_mem_nil, or_false, Prod.mk.injEq] at hmem
    rcases hmem with ⟨rfl, rfl⟩ | ⟨rfl, rfl⟩ | ⟨rfl, rfl⟩ | ⟨rfl, rfl⟩
    · rw [getShort_str t "I" htf rfl, hGR, if_neg (by decide), if_neg (by decide)] at hs
      exact (Option.some.inj hs).symm
    · rw [getShort_str t "II" htf rfl, hGR, if_neg (by decide), if_neg (by decide)] at hs
      exact (Option.some.inj hs).symm
    · rw [getShort_str t "III" htf rfl, hGR, if_neg (by decide), if_neg (by decide)] at hs
      exact (Option.some.inj hs).symm
    · rw [getShort_str t "IV" htf rfl, hGR, if_neg (by decide), if_pos (by decide)] at hs
      exact (Option.some.inj hs).symm

/-- A league-entry payload with the given tier and rank members (both
optional). -/
def c8Payload (tierRank : List (String × Json)) : List (String × Json) :=
  [("summonerId", .str "sid"), ("summonerName", .str "name"),
   ("queueType", .str "RANKED_SOLO_5x5"), ("leaguePoints", .int 10),
   ("wins", .int 7), ("losses", .int 3), ("hotStreak", .bool false),
   ("veteran", .bool false), ("freshBlood", .bool false),
   ("inactive", .bool false)] ++ tierRank

/-- Witness for C8 at the concrete scenarios: GRANDMASTER with rank I
gives GM1, GOLD with rank IV gives G4, and a payload without a tier
gives the absent marker. -/
theorem c8_short_rank_label_witness :
    (∃ r : LeagueEntryDTO,
      mkLeagueEntryDTO (c8Payload [("tier", .str "GRANDMASTER"), ("rank", .str "I")]) =
        some r ∧ r.short = some "GM1") ∧
    (∃ r : LeagueEntryDTO,
      mkLeagueEntryDTO (c8Payload [("tier", .str "GOLD"), ("rank", .str "IV")]) =
        some r ∧ r.short = some "G4") ∧
    (∃ r : LeagueEntryDTO,
      mkLeagueEntryDTO (c8Payload [("rank", .str "I")]) = some r ∧ r.short = none) := by
  obtain ⟨r1, h1⟩ : ∃ r, mkLeagueEntryDTO
      (c8Payload [("tier", .str "GRANDMASTER"), ("rank", .str "I")]) = some r := ⟨_, rfl⟩
  obtain ⟨r2, h2⟩ : ∃ r, mkLeagueEntryDTO
      (c8Payload [("tier", .str "GOLD"), ("rank", .str "IV")]) = some r := ⟨_, rfl⟩
  obtain ⟨r3, h3⟩ : ∃ r, mkLeagueEntryDTO (c8Payload [("rank", .str "I")]) = some r :=
    ⟨_, rfl⟩
  refine ⟨⟨r1, h1, ?_⟩, ⟨r2, h2, ?_⟩, ⟨r3, h3, ?_⟩⟩
  · exact (c8_short_rank_label _ r1 h1).2.1 "GRANDMASTER" "I" "1" rfl rfl rfl (by simp)
  · exact (c8_short_rank_label _ r2 h2).2.2 "GOLD" "IV" "4" rfl rfl rfl
      (by decide) (by simp)
  · exact (c8_short_rank_label _ r3 h3).1 (Or.inl rfl)

/-
Claim C9.
-/

/-- Claim C9: for a Record type (AccountDto as the representative) and
any payload object with unique keys (a Python dict) that binds the
declared required keys, decoding succeeds, and every pair whose key is
not a declared constructor parameter (the schema keys together with the
inherited success parameter of the base class) is preserved verbatim
among the extension attributes — no unknown key is discarded and no
unknown key causes the decode to fail. -/
theorem c9_unknown_keys_preserved (p : List (String × Json))
    (_hnd : (p.map Prod.fst).Nodup)
    (hpu : hasKey "puuid" p = true) (hgn : hasKey "gameName" p = true)
    (htl : hasKey "tagLine" p = true) :
    ∃ a : AccountDto, mkAccountDto p = some a ∧
      ∀ k v, (k, v) ∈ p → k ∉ ["puuid", "gameName", "tagLine", "success"] →
        (k, v) ∈ a.extensions := by
  obtain ⟨pu, hpu'⟩ := hasKey_exists _ _ hpu
  obtain ⟨gn, hgn'⟩ := hasKey_exists _ _ hgn
  obtain ⟨tl, htl'⟩ := hasKey_exists _ _ htl
  refine ⟨⟨pu, gn, tl,
    kwSuccess (removeKeys ["puuid", "gameName", "tagLine"] p),
    kwRest (removeKeys ["puuid", "gameName", "tagLine"] p)⟩,
    by simp [mkAccountDto, hpu', hgn', htl'], ?_⟩
  intro k v hkv hk
  simp only [List.mem_cons, List.not_mem_nil, or_false, not_or] at hk
  obtain ⟨hk1, hk2, hk3, hk4⟩ := hk
  show (k, v) ∈ kwRest (removeKeys ["puuid", "gameName", "tagLine"] p)
  rw [kwRest, removeKeys, List.mem_filter]
  refine ⟨?_, by simp [hk4]⟩
  rw [removeKeys, List.mem_filter]
  exact ⟨hkv, by simp [hk1, hk2, hk3]⟩

/-- Witness for C9: a payload with the three declared keys and two
unknown keys decodes, and both unknown pairs appear among the extension
attributes. -/
theorem c9_unknown_keys_preserved_witness :
    ∃ a : AccountDto,
      mkAccountDto [("puuid", .str "p"), ("gameName", .str "g"),
        ("tagLine", .str "t"), ("newField", .int 7), ("other", .str "x")] =
        some a ∧
      ("newField", Json.int 7) ∈ a.extensions ∧
      ("other", Json.str "x") ∈ a.extensions := by
  obtain ⟨a, ha, hext⟩ := c9_unknown_keys_preserved
    [("puuid", .str "p"), ("gameName", .str "g"), ("tagLine", .str "t"),
     ("newField", .int 7), ("other", .str "x")]
    (by simp) rfl rfl rfl
  exact ⟨a, ha, hext "newField" (.int 7) (by simp) (by simp),
    hext "other" (.str "x") (by simp) (by simp)⟩

/-
Claim C10.
-/

theorem mkMTLEventDto_vdr (p : List (String × Json)) (r : MTLEventDto)
    (h : mkMTLEventDto p = some r) :
    decodeVictimDamageReceived (getKey "victimDamageDealt" p)
      (getKey "victimDamageReceived" p) = some r.victimDamageReceived := by
  unfold mkMTLEventDto at h
  split at h
  case isFalse => exact absurd h (by simp)
  rcases h1 : decodePosition (getKey "position" p) with _ | pos <;> rw [h1] at h
  · exact absurd h (by simp)
  rcases h2 : decodeVictimDamageDealt (getKey "victimDamageDealt" p) with _ | vdd <;>
    rw [h2] at h
  · exact absurd h (by simp)
  rcases h3 : decodeVictimDamageReceived (getKey "victimDamageDealt" p)
      (getKey "victimDamageReceived" p) with _ | vdr <;> rw [h3] at h
  · exact absurd h (by simp)
  simp only [Option.some_bind, Option.some.injEq] at h
  subst h
  rfl

theorem decodeVDR_not_null (vdd vdr : Json) (h : vdd ≠ .null) :
    decodeVictimDamageReceived vdd vdr = (pyDamageList vdr).map some := by
  cases vdd
  case null => exact absurd rfl h
  all_goals rfl

/-- Claim C10: in a decoded match-timeline event, the stored
victimDamageReceived is gated by the victimDamageDealt argument, not by
victimDamageReceived itself: when victimDamageDealt is absent (None),
the attribute is None even if the payload supplied a
victimDamageReceived list; when victimDamageDealt is present, the
victimDamageReceived list is decoded element-wise through the
MTLDamageDto constructor. -/
theorem c10_victim_damage_received_gate :
    (∀ (p : List (String × Json)) (r : MTLEventDto),
      mkMTLEventDto p = some r → getKey "victimDamageDealt" p = .null →
      r.victimDamageReceived = none) ∧
    (∀ (p : List (String × Json)) (r : MTLEventDto) (xs : List Json)
       (ds : List MTLDamageDto),
      mkMTLEventDto p = some r → getKey "victimDamageDealt" p ≠ .null →
      getKey "victimDamageReceived" p = .arr xs →
      decodeElems mkMTLDamageDto xs = some ds →
      r.victimDamageReceived = some ds) := by
  constructor
  · intro p r h hnull
    have hv := mkMTLEventDto_vdr p r h
    rw [hnull, decodeVictimDamageReceived] at hv
    exact (Option.some.inj hv).symm
  · intro p r xs ds h hne hxs hds
    have hv := mkMTLEventDto_vdr p r h
    rw [decodeVDR_not_null _ _ hne, hxs] at hv
    have hpy : pyDamageList (.arr xs) = some ds := by rw [pyDamageList, hds]
    rw [hpy] at hv
    exact (Option.some.inj hv).symm

/-- A well-formed damage object. -/
def c10Damage : Json :=
  .obj (damageKeys.map (fun k => (k, Json.int 0)))

/-- Witness for C10: an event payload supplying only a
victimDamageReceived list decodes with the attribute None, and one
supplying both lists decodes the victimDamageReceived list
element-wise. -/
theorem c10_victim_damage_received_gate_witness :
    (∃ r : MTLEventDto,
      mkMTLEventDto [("timestamp", .int 1), ("type", .str "CHAMPION_KILL"),
        ("victimDamageReceived", .arr [c10Damage])] = some r ∧
      r.victimDamageReceived = none) ∧
    (∃ (r : MTLEventDto) (ds : List MTLDamageDto),
      mkMTLEventDto [("timestamp", .int 1), ("type", .str "CHAMPION_KILL"),
        ("victimDamageDealt", .arr [c10Damage]),
        ("victimDamageReceived", .arr [c10Damage])] = some r ∧
      decodeElems mkMTLDamageDto [c10Damage] = some ds ∧
      r.victimDamageReceived = some ds) := by
  constructor
  · obtain ⟨r, hr⟩ : ∃ r, mkMTLEventDto [("timestamp", .int 1),
        ("type", .str "CHAMPION_KILL"),
        ("victimDamageReceived", .arr [c10Damage])] = some r := ⟨_, rfl⟩
    exact ⟨r, hr, c10_victim_damage_received_gate.1 _ r hr rfl⟩
  · obtain ⟨r, hr⟩ : ∃ r, mkMTLEventDto [("timestamp", .int 1),
        ("type", .str "CHAMPION_KILL"),
        ("victimDamageDealt", .arr [c10Damage]),
        ("victimDamageReceived", .arr [c10Damage])] = some r := ⟨_, rfl⟩
    obtain ⟨ds, hds⟩ : ∃ ds, decodeElems mkMTLDamageDto [c10Damage] = some ds :=
      ⟨_, rfl⟩
    exact ⟨r, ds, hr, hds,
      c10_victim_damage_received_gate.2 _ r [c10Damage] ds hr
        (fun he => Json.noConfusion he) rfl hds⟩

end AsyncRiotApi
